import Mathlib

/-!
Verification of the sequential model-based optimization (SMBO) core of this
repository.  The repository source under `src/` contains the dispatch layer
`skopt/optimizer/forest.py` (`forest_minimize`); the orchestration loop
(`base_minimize`), the acquisition evaluator and the result assembly live in
modules that are not part of `src/`, so those parts are modelled from the
specification and marked as such in their doc comments.  Machine integers do
not occur: the loop counts are natural numbers and the objective values are
integers; acquisition arithmetic is carried out over the rationals.
-/

/-- Modelled from the spec: the Acquisition Evaluator's lower-confidence-bound
variant, `score = mean - kappa * std` (the acquisition module is not under
`src/`). -/
def gaussian_lcb (mean std kappa : Rat) : Rat :=
  mean - kappa * std

/-- Modelled from the spec: the Acquisition Evaluator's expected-improvement
variant (the acquisition module is not under `src/`).  Improvement is measured
relative to the threshold `y_opt - xi`; when `std` is exactly zero the expected
improvement is defined as zero, avoiding division by zero; otherwise the usual
closed form `(t - mean) * cdf z + std * pdf z` with `z = (t - mean) / std` is
used, where `cdf` and `pdf` stand for the external standard-normal routines.
The negative of the expected improvement is returned so that the minimization
convention holds. -/
def gaussian_ei (cdf pdf : Rat → Rat) (mean std y_opt xi : Rat) : Rat :=
  if std = 0 then 0
  else
    -((y_opt - xi - mean) * cdf ((y_opt - xi - mean) / std)
        + std * pdf ((y_opt - xi - mean) / std))

/-- Modelled from the spec: the Acquisition Evaluator's
probability-of-improvement variant (the acquisition module is not under
`src/`).  The zero-variance branch is guarded explicitly: with `std = 0` the
candidate beats the threshold `y_opt - xi` with probability one exactly when
`mean` lies below the threshold, and with probability zero otherwise.  The
negative probability is returned so the minimization convention holds. -/
def gaussian_pi (cdf : Rat → Rat) (mean std y_opt xi : Rat) : Rat :=
  if std = 0 then (if mean < y_opt - xi then -1 else 0)
  else -(cdf ((y_opt - xi - mean) / std))

/-- Modelled from the spec: the driver's phases `SEEDING`, `RANDOM_WARMUP`,
`GUIDED`, `DONE` (the driver module `base_minimize` is not under `src/`). -/
inductive Phase where
  | seeding
  | randomWarmup
  | guided
  | done
deriving DecidableEq

/-- Modelled from the spec: an Observation is a (Point, scalar value) pair
produced by one objective evaluation. -/
structure Observation (α : Type) where
  pt : α
  val : Int
deriving DecidableEq

/-- Modelled from the spec: the configuration surface consumed by the driver
(`base_minimize` is not under `src/`): total evaluation budget, warm-up count
and the reproducibility seed. -/
structure SMBOConfig where
  n_calls : Nat
  n_random_starts : Nat
  random_state : Option Nat
deriving DecidableEq

/-- Modelled from the spec: the error taxonomy entry for invalid budget or
phase-count relationships and malformed seed sets. -/
inductive SMBOError where
  | configurationError
deriving DecidableEq

/-- Modelled from the spec: the external capabilities the driver orchestrates
(the driver module is not under `src/`): the objective function, the Space
Encoder's random sampler (deterministic given the seed and the draw index) and
the surrogate-driven Candidate Sampler (deterministic given the seed and the
full Trace it is refitted on). -/
structure Oracles (α : Type) where
  func : α → Int
  sample : Nat → Nat → α
  propose : Nat → List (Observation α) → α

/-- Modelled from the spec: the driver's state: current phase, seed points not
yet evaluated, remaining random and guided evaluation counts, next random draw
index, the Trace, and the log of points the objective was called on. -/
structure DriverState (α : Type) where
  phase : Phase
  pendingSeeds : List α
  randomLeft : Nat
  guidedLeft : Nat
  randomIdx : Nat
  trace : List (Observation α)
  callLog : List α
deriving DecidableEq

/-- Modelled from the spec: one iteration of the driver's state machine.  Each
iteration appends exactly one Observation to the Trace: a pending seed point is
evaluated first (`SEEDING`); otherwise a random draw is evaluated while any
remain (`RANDOM_WARMUP`); otherwise a surrogate-guided proposal (refitted on
the entire Trace so far) is evaluated while any remain (`GUIDED`); otherwise
the machine transitions to `DONE`. -/
def step (O : Oracles α) (seed : Nat) (s : DriverState α) : DriverState α :=
  match s.pendingSeeds with
  | p :: rest =>
      { phase := Phase.seeding, pendingSeeds := rest,
        randomLeft := s.randomLeft, guidedLeft := s.guidedLeft,
        randomIdx := s.randomIdx,
        trace := s.trace ++ [⟨p, O.func p⟩],
        callLog := s.callLog ++ [p] }
  | [] =>
      match s.randomLeft with
      | r + 1 =>
          { phase := Phase.randomWarmup, pendingSeeds := [],
            randomLeft := r, guidedLeft := s.guidedLeft,
            randomIdx := s.randomIdx + 1,
            trace := s.trace
              ++ [⟨O.sample seed s.randomIdx, O.func (O.sample seed s.randomIdx)⟩],
            callLog := s.callLog ++ [O.sample seed s.randomIdx] }
      | 0 =>
          match s.guidedLeft with
          | g + 1 =>
              { phase := Phase.guided, pendingSeeds := [],
                randomLeft := 0, guidedLeft := g,
                randomIdx := s.randomIdx,
                trace := s.trace
                  ++ [⟨O.propose seed s.trace, O.func (O.propose seed s.trace)⟩],
                callLog := s.callLog ++ [O.propose seed s.trace] }
          | 0 => { s with phase := Phase.done }

/-- Modelled from the spec: run the driver's state machine for a given number
of iterations. -/
def iterate (O : Oracles α) (seed : Nat) : Nat → DriverState α → DriverState α
  | 0, s => s
  | k + 1, s => iterate O seed k (step O seed s)

/-- Modelled from the spec: the Observations obtained by evaluating the
objective at a list of points, in order. -/
def evalObs (f : α → Int) (ps : List α) : List (Observation α) :=
  ps.map fun p => ⟨p, f p⟩

/-- Modelled from the spec: the points produced by `r` successive random draws
starting at draw index `i`, for a fixed seed. -/
def randomPts (sample : Nat → Nat → α) (seed : Nat) : Nat → Nat → List α
  | _, 0 => []
  | i, r + 1 => sample seed i :: randomPts sample seed (i + 1) r

/-- Modelled from the spec: the Observations and the objective-call log of `g`
guided evaluations starting from Trace `t`; before every proposal the surrogate
is refitted on the entire Trace accumulated so far, which is why the proposal
depends on the growing Trace. -/
def guidedRun (O : Oracles α) (seed : Nat) :
    List (Observation α) → Nat → List (Observation α) × List α
  | _, 0 => ([], [])
  | t, g + 1 =>
      (⟨O.propose seed t, O.func (O.propose seed t)⟩
          :: (guidedRun O seed (t ++ [⟨O.propose seed t, O.func (O.propose seed t)⟩]) g).1,
        O.propose seed t
          :: (guidedRun O seed (t ++ [⟨O.propose seed t, O.func (O.propose seed t)⟩]) g).2)

/-- Modelled from the spec: pre-evaluated seed pairs are appended to the Trace
as-is, pairing the i-th point of `x0` with the i-th value of `y0`. -/
def seedObs (xs : List α) (ys : List Int) : List (Observation α) :=
  (xs.zip ys).map fun pv => ⟨pv.1, pv.2⟩

/-- Modelled from the spec: resolution of the reproducibility seed.  A supplied
`random_state` is used as-is; when it is absent the ambient entropy decides the
stream, so only runs with a supplied `random_state` are reproducible. -/
def seedOf (cfg : SMBOConfig) (entropy : Nat) : Nat :=
  cfg.random_state.getD entropy

/-- Modelled from the spec: the SMBO driver `base_minimize` (not under
`src/`).  Validation happens before any evaluation: the run fails with
`ConfigurationError` if `n_calls < n_random_starts`, or if `x0` and `y0` are
both supplied with different lengths.  With `x0` supplied and `y0` absent, the
machine starts in `SEEDING` with every point of `x0` pending, then performs
`n_random_starts` random evaluations and
`n_calls - len x0 - n_random_starts` guided evaluations.  With both supplied,
the seed pairs are placed on the Trace without objective calls and the machine
performs `n_random_starts` random and `n_calls - n_random_starts` guided
evaluations.  With neither supplied, it performs `n_random_starts` random and
`n_calls - n_random_starts` guided evaluations.  One extra iteration makes the
final transition to `DONE`. -/
def runSMBO (O : Oracles α) (entropy : Nat) (cfg : SMBOConfig)
    (x0 : Option (List α)) (y0 : Option (List Int)) :
    Except SMBOError (DriverState α) :=
  if cfg.n_calls < cfg.n_random_starts then
    Except.error SMBOError.configurationError
  else
    match x0, y0 with
    | some xs, some ys =>
        if xs.length ≠ ys.length then
          Except.error SMBOError.configurationError
        else
          Except.ok (iterate O (seedOf cfg entropy)
            (cfg.n_random_starts + ((cfg.n_calls - cfg.n_random_starts) + 1))
            { phase := Phase.randomWarmup, pendingSeeds := [],
              randomLeft := cfg.n_random_starts,
              guidedLeft := cfg.n_calls - cfg.n_random_starts,
              randomIdx := 0, trace := seedObs xs ys, callLog := [] })
    | some xs, none =>
        Except.ok (iterate O (seedOf cfg entropy)
          (xs.length + (cfg.n_random_starts
            + ((cfg.n_calls - xs.length - cfg.n_random_starts) + 1)))
          { phase := Phase.seeding, pendingSeeds := xs,
            randomLeft := cfg.n_random_starts,
            guidedLeft := cfg.n_calls - xs.length - cfg.n_random_starts,
            randomIdx := 0, trace := [], callLog := [] })
    | none, _ =>
        Except.ok (iterate O (seedOf cfg entropy)
          (cfg.n_random_starts + ((cfg.n_calls - cfg.n_random_starts) + 1))
          { phase := Phase.randomWarmup, pendingSeeds := [],
            randomLeft := cfg.n_random_starts,
            guidedLeft := cfg.n_calls - cfg.n_random_starts,
            randomIdx := 0, trace := [], callLog := [] })

/-- Modelled from the spec: the earliest Observation with minimal value in a
Trace (`none` for the empty Trace).  At equal values the earlier Observation is
kept, so ties are broken by evaluation order. -/
def bestObs : List (Observation α) → Option (Observation α)
  | [] => none
  | o :: rest =>
      match bestObs rest with
      | none => some o
      | some b => some (if b.val < o.val then b else o)

/-- Modelled from the spec: the result surface of a completed run: best point
`x`, best value `fun_val`, and the full Trace as the parallel sequences
`x_iters` and `func_vals` in evaluation order. -/
structure OptimizeResult (α : Type) where
  x : α
  fun_val : Int
  x_iters : List α
  func_vals : List Int
deriving DecidableEq

/-- Modelled from the spec: result assembly at loop termination (the driver
module is not under `src/`): the argmin/min over the Trace plus the parallel
Trace sequences; `none` only for an empty Trace. -/
def assembleResult (tr : List (Observation α)) : Option (OptimizeResult α) :=
  (bestObs tr).map fun b =>
    { x := b.pt, fun_val := b.val,
      x_iters := tr.map fun o => o.pt,
      func_vals := tr.map fun o => o.val }

/-- The regressors `forest_minimize` can construct or receive
(`src/skopt/optimizer/forest.py`).  The `random_state` field records the
`rng = check_random_state(random_state)` stream handed to the predefined
constructors, modelled by the seed it was resolved from. -/
inductive Regressor where
  | randomForestRegressor (n_estimators min_samples_leaf : Nat) (n_jobs : Int)
      (random_state : Option Nat)
  | extraTreesRegressor (n_estimators min_samples_leaf : Nat) (n_jobs : Int)
      (random_state : Option Nat)
  | randomForestQuantileRegressor (quantiles : Rat)
      (n_estimators min_samples_leaf : Nat) (n_jobs : Int)
      (random_state : Option Nat)
deriving DecidableEq

/-- The `base_estimator` argument of `forest_minimize`: either a string naming
a predefined model or a regressor instance (`src/skopt/optimizer/forest.py`). -/
inductive BaseEstimatorArg where
  | name (s : String)
  | inst (r : Regressor)
deriving DecidableEq

/-- The keyword arguments of `forest_minimize` with the default values of its
signature in `src/skopt/optimizer/forest.py` (`func` and `dimensions` are the
external objective and space and carry no dispatch logic, so they are not
recorded here). -/
structure ForestArgs (α : Type) where
  base_estimator : BaseEstimatorArg := BaseEstimatorArg.name "ET"
  n_calls : Nat := 100
  n_random_starts : Nat := 10
  acq_func : String := "EI"
  acq_optimizer : String := "auto"
  x0 : Option (List α) := none
  y0 : Option (List Int) := none
  random_state : Option Nat := none
  verbose : Bool := false
  n_points : Nat := 10000
  xi : Rat := 1/100
  kappa : Rat := 49/25
  n_jobs : Int := 1
  quantiles : Rat := 1/20
deriving DecidableEq

/-- The call `forest_minimize` makes into `base_minimize`
(`src/skopt/optimizer/forest.py`, final return statement): the resolved
estimator and every forwarded keyword argument. -/
structure BaseMinimizeCall (α : Type) where
  base_estimator : Regressor
  n_calls : Nat
  n_points : Nat
  n_random_starts : Nat
  x0 : Option (List α)
  y0 : Option (List Int)
  random_state : Option Nat
  acq_func : String
  xi : Rat
  kappa : Rat
  verbose : Bool
  acq_optimizer : String
deriving DecidableEq

/-- The argument forwarding of the final `return base_minimize(...)` statement
of `forest_minimize` (`src/skopt/optimizer/forest.py`): every keyword is
passed through unchanged except `acq_optimizer`, which is passed as the
literal string `"sampling"`. -/
def mkBaseCall (args : ForestArgs α) (est : Regressor) : BaseMinimizeCall α :=
  { base_estimator := est, n_calls := args.n_calls, n_points := args.n_points,
    n_random_starts := args.n_random_starts, x0 := args.x0, y0 := args.y0,
    random_state := args.random_state, acq_func := args.acq_func,
    xi := args.xi, kappa := args.kappa, verbose := args.verbose,
    acq_optimizer := "sampling" }

/-- `forest_minimize` from `src/skopt/optimizer/forest.py`: when
`base_estimator` is a string it must be one of `"RF"`, `"ET"`,
`"RFquantile"`, otherwise a `ValueError` whose message names only
`'RF'` and `'ET'` is raised before anything else happens; a recognised string
is replaced by the corresponding predefined regressor (100 estimators, minimum
leaf size 3, the supplied `n_jobs` and the resolved `rng`); finally
`base_minimize` is invoked with `acq_optimizer="sampling"`. -/
def forest_minimize (args : ForestArgs α) : Except String (BaseMinimizeCall α) :=
  match args.base_estimator with
  | BaseEstimatorArg.name s =>
      if s ≠ "RF" ∧ s ≠ "ET" ∧ s ≠ "RFquantile" then
        Except.error ("Valid strings for the base_estimator parameter"
          ++ " are: \x27RF\x27 or \x27ET\x27, not \x27" ++ s ++ "\x27")
      else if s = "RF" then
        Except.ok (mkBaseCall args
          (Regressor.randomForestRegressor 100 3 args.n_jobs args.random_state))
      else if s = "ET" then
        Except.ok (mkBaseCall args
          (Regressor.extraTreesRegressor 100 3 args.n_jobs args.random_state))
      else
        Except.ok (mkBaseCall args
          (Regressor.randomForestQuantileRegressor args.quantiles 100 3
            args.n_jobs args.random_state))
  | BaseEstimatorArg.inst r => Except.ok (mkBaseCall args r)

/-- Transcribed from the docstring of `forest_minimize`
(`src/skopt/optimizer/forest.py`): the documented default of the `acq_func`
parameter is the string `"LCB"`. -/
def documented_acq_func_default : String := "LCB"

/-- Concrete computable oracles over `Nat` points, used to exercise the
modelled driver on closed inputs. -/
def demoOracles : Oracles Nat :=
  { func := fun p => (p : Int),
    sample := fun s i => s + i,
    propose := fun s t => s + t.length }

theorem evalObs_length (f : α → Int) (ps : List α) :
    (evalObs f ps).length = ps.length := by
  simp [evalObs]

theorem randomPts_length (sample : Nat → Nat → α) (seed : Nat) :
    ∀ r i, (randomPts sample seed i r).length = r := by
  intro r
  induction r with
  | zero => intro i; rfl
  | succ r ih => intro i; simp [randomPts, ih]

theorem guidedRun_fst_length (O : Oracles α) (seed : Nat) :
    ∀ g t, ((guidedRun O seed t g).1).length = g := by
  intro g
  induction g with
  | zero => intro t; rfl
  | succ g ih => intro t; simp [guidedRun, ih]

theorem guidedRun_snd_length (O : Oracles α) (seed : Nat) :
    ∀ g t, ((guidedRun O seed t g).2).length = g := by
  intro g
  induction g with
  | zero => intro t; rfl
  | succ g ih => intro t; simp [guidedRun, ih]

theorem seedObs_length (xs : List α) (ys : List Int) :
    (seedObs xs ys).length = min xs.length ys.length := by
  simp [seedObs]

theorem iterate_seeds (O : Oracles α) (seed : Nat) :
    ∀ (xs : List α) (k : Nat) (ph : Phase) (rl gl ri : Nat)
      (tr : List (Observation α)) (lg : List α),
    iterate O seed (xs.length + k) ⟨ph, xs, rl, gl, ri, tr, lg⟩
      = iterate O seed k
          ⟨(if xs.isEmpty then ph else Phase.seeding), [], rl, gl, ri,
            tr ++ evalObs O.func xs, lg ++ xs⟩ := by
  intro xs
  induction xs with
  | nil => intro k ph rl gl ri tr lg; simp [evalObs]
  | cons p rest ih =>
      intro k ph rl gl ri tr lg
      have hlen : (p :: rest).length + k = (rest.length + k) + 1 := by
        simp [List.length_cons]; omega
      rw [hlen]
      show iterate O seed (rest.length + k) (step O seed ⟨ph, p :: rest, rl, gl, ri, tr, lg⟩) = _
      rw [show step O seed ⟨ph, p :: rest, rl, gl, ri, tr, lg⟩
            = ⟨Phase.seeding, rest, rl, gl, ri, tr ++ [⟨p, O.func p⟩], lg ++ [p]⟩ from rfl]
      rw [ih]
      simp [evalObs]

theorem iterate_random (O : Oracles α) (seed : Nat) :
    ∀ (r k : Nat) (ph : Phase) (gl ri : Nat)
      (tr : List (Observation α)) (lg : List α),
    iterate O seed (r + k) ⟨ph, [], r, gl, ri, tr, lg⟩
      = iterate O seed k
          ⟨(if r = 0 then ph else Phase.randomWarmup), [], 0, gl, ri + r,
            tr ++ evalObs O.func (randomPts O.sample seed ri r),
            lg ++ randomPts O.sample seed ri r⟩ := by
  intro r
  induction r with
  | zero => intro k ph gl ri tr lg; simp [randomPts, evalObs]
  | succ r ih =>
      intro k ph gl ri tr lg
      have hlen : (r + 1) + k = (r + k) + 1 := by omega
      rw [hlen]
      show iterate O seed (r + k) (step O seed ⟨ph, [], r + 1, gl, ri, tr, lg⟩) = _
      rw [show step O seed ⟨ph, [], r + 1, gl, ri, tr, lg⟩
            = ⟨Phase.randomWarmup, [], r, gl, ri + 1,
                tr ++ [⟨O.sample seed ri, O.func (O.sample seed ri)⟩],
                lg ++ [O.sample seed ri]⟩ from rfl]
      rw [ih]
      have hri : ri + 1 + r = ri + (r + 1) := by omega
      simp [randomPts, evalObs, hri]

theorem iterate_guided (O : Oracles α) (seed : Nat) :
    ∀ (g k : Nat) (ph : Phase) (ri : Nat)
      (tr : List (Observation α)) (lg : List α),
    iterate O seed (g + k) ⟨ph, [], 0, g, ri, tr, lg⟩
      = iterate O seed k
          ⟨(if g = 0 then ph else Phase.guided), [], 0, 0, ri,
            tr ++ (guidedRun O seed tr g).1,
            lg ++ (guidedRun O seed tr g).2⟩ := by
  intro g
  induction g with
  | zero => intro k ph ri tr lg; simp [guidedRun]
  | succ g ih =>
      intro k ph ri tr lg
      have hlen : (g + 1) + k = (g + k) + 1 := by omega
      rw [hlen]
      show iterate O seed (g + k) (step O seed ⟨ph, [], 0, g + 1, ri, tr, lg⟩) = _
      rw [show step O seed ⟨ph, [], 0, g + 1, ri, tr, lg⟩
            = ⟨Phase.guided, [], 0, g, ri,
                tr ++ [⟨O.propose seed tr, O.func (O.propose seed tr)⟩],
                lg ++ [O.propose seed tr]⟩ from rfl]
      rw [ih]
      simp [guidedRun]

theorem iterate_one_done (O : Oracles α) (seed : Nat) (ph : Phase) (ri : Nat)
    (tr : List (Observation α)) (lg : List α) :
    iterate O seed 1 ⟨ph, [], 0, 0, ri, tr, lg⟩
      = ⟨Phase.done, [], 0, 0, ri, tr, lg⟩ := rfl

theorem runSMBO_x0_only (O : Oracles α) (e : Nat) (cfg : SMBOConfig)
    (xs : List α) (h : cfg.n_random_starts ≤ cfg.n_calls) :
    runSMBO O e cfg (some xs) none =
      Except.ok
        ⟨Phase.done, [], 0, 0, cfg.n_random_starts,
          evalObs O.func xs
            ++ evalObs O.func
                (randomPts O.sample (seedOf cfg e) 0 cfg.n_random_starts)
            ++ (guidedRun O (seedOf cfg e)
                  (evalObs O.func xs
                    ++ evalObs O.func
                        (randomPts O.sample (seedOf cfg e) 0 cfg.n_random_starts))
                  (cfg.n_calls - xs.length - cfg.n_random_starts)).1,
          xs ++ randomPts O.sample (seedOf cfg e) 0 cfg.n_random_starts
            ++ (guidedRun O (seedOf cfg e)
                  (evalObs O.func xs
                    ++ evalObs O.func
                        (randomPts O.sample (seedOf cfg e) 0 cfg.n_random_starts))
                  (cfg.n_calls - xs.length - cfg.n_random_starts)).2⟩ := by
  have hnot : ¬ cfg.n_calls < cfg.n_random_starts := Nat.not_lt.mpr h
  simp only [runSMBO, if_neg hnot]
  rw [iterate_seeds, iterate_random, iterate_guided, iterate_one_done]
  simp

theorem runSMBO_seeded (O : Oracles α) (e : Nat) (cfg : SMBOConfig)
    (xs : List α) (ys : List Int) (h : cfg.n_random_starts ≤ cfg.n_calls)
    (hlen : xs.length = ys.length) :
    runSMBO O e cfg (some xs) (some ys) =
      Except.ok
        ⟨Phase.done, [], 0, 0, cfg.n_random_starts,
          seedObs xs ys
            ++ evalObs O.func
                (randomPts O.sample (seedOf cfg e) 0 cfg.n_random_starts)
            ++ (guidedRun O (seedOf cfg e)
                  (seedObs xs ys
                    ++ evalObs O.func
                        (randomPts O.sample (seedOf cfg e) 0 cfg.n_random_starts))
                  (cfg.n_calls - cfg.n_random_starts)).1,
          randomPts O.sample (seedOf cfg e) 0 cfg.n_random_starts
            ++ (guidedRun O (seedOf cfg e)
                  (seedObs xs ys
                    ++ evalObs O.func
                        (randomPts O.sample (seedOf cfg e) 0 cfg.n_random_starts))
                  (cfg.n_calls - cfg.n_random_starts)).2⟩ := by
  have hnot : ¬ cfg.n_calls < cfg.n_random_starts := Nat.not_lt.mpr h
  have hne : ¬ xs.length ≠ ys.length := fun hc => hc hlen
  simp only [runSMBO, if_neg hnot, if_neg hne]
  rw [iterate_random, iterate_guided, iterate_one_done]
  simp

theorem runSMBO_noseeds (O : Oracles α) (e : Nat) (cfg : SMBOConfig)
    (y0 : Option (List Int)) (h : cfg.n_random_starts ≤ cfg.n_calls) :
    runSMBO O e cfg none y0 =
      Except.ok
        ⟨Phase.done, [], 0, 0, cfg.n_random_starts,
          evalObs O.func
              (randomPts O.sample (seedOf cfg e) 0 cfg.n_random_starts)
            ++ (guidedRun O (seedOf cfg e)
                  (evalObs O.func
                    (randomPts O.sample (seedOf cfg e) 0 cfg.n_random_starts))
                  (cfg.n_calls - cfg.n_random_starts)).1,
          randomPts O.sample (seedOf cfg e) 0 cfg.n_random_starts
            ++ (guidedRun O (seedOf cfg e)
                  (evalObs O.func
                    (randomPts O.sample (seedOf cfg e) 0 cfg.n_random_starts))
                  (cfg.n_calls - cfg.n_random_starts)).2⟩ := by
  have hnot : ¬ cfg.n_calls < cfg.n_random_starts := Nat.not_lt.mpr h
  simp only [runSMBO, if_neg hnot]
  rw [iterate_random, iterate_guided, iterate_one_done]
  simp

theorem bestObs_spec (tr : List (Observation α)) (b : Observation α)
    (h : bestObs tr = some b) :
    (∀ o ∈ tr, b.val ≤ o.val) ∧
    ∃ pre post, tr = pre ++ b :: post ∧ ∀ o ∈ pre, b.val < o.val := by
  induction tr generalizing b with
  | nil => simp [bestObs] at h
  | cons o rest ih =>
      cases hrest : bestObs rest with
      | none =>
          have hre : rest = [] := by
            cases rest with
            | nil => rfl
            | cons x xsr =>
                simp only [bestObs] at hrest
                cases hbx : bestObs xsr <;> simp [hbx] at hrest
          subst hre
          simp only [bestObs, Option.some.injEq] at h
          subst h
          refine ⟨by simp, [], [], rfl, by simp⟩
      | some br =>
          simp only [bestObs, hrest, Option.some.injEq] at h
          by_cases hlt : br.val < o.val
          · rw [if_pos hlt] at h
            subst h
            obtain ⟨hmin, pre, post, hsplit, hpre⟩ := ih br hrest
            refine ⟨?_, o :: pre, post, by simp [hsplit], ?_⟩
            · intro x hx
              rcases List.mem_cons.mp hx with hx | hx
              · subst hx; exact le_of_lt hlt
              · exact hmin x hx
            · intro x hx
              rcases List.mem_cons.mp hx with hx | hx
              · subst hx; exact hlt
              · exact hpre x hx
          · rw [if_neg hlt] at h
            subst h
            obtain ⟨hmin, _, _, _, _⟩ := ih br hrest
            push_neg at hlt
            refine ⟨?_, [], rest, rfl, by simp⟩
            intro x hx
            rcases List.mem_cons.mp hx with hx | hx
            · subst hx; exact le_rfl
            · exact le_trans hlt (hmin x hx)

/-- Claim C1: with `x0` supplied and `y0` absent, a valid run evaluates every
point of `x0` first (in order), then `n_random_starts` randomly sampled
points, then `n_calls - len x0 - n_random_starts` surrogate-proposed points:
the final Trace and objective-call log decompose into exactly these three
segments, and the random and guided segments have exactly the stated
lengths. -/
theorem claim_C1 (O : Oracles α) (e : Nat) (cfg : SMBOConfig) (xs : List α)
    (h : cfg.n_random_starts ≤ cfg.n_calls) :
    runSMBO O e cfg (some xs) none =
      Except.ok
        ⟨Phase.done, [], 0, 0, cfg.n_random_starts,
          evalObs O.func xs
            ++ evalObs O.func
                (randomPts O.sample (seedOf cfg e) 0 cfg.n_random_starts)
            ++ (guidedRun O (seedOf cfg e)
                  (evalObs O.func xs
                    ++ evalObs O.func
                        (randomPts O.sample (seedOf cfg e) 0 cfg.n_random_starts))
                  (cfg.n_calls - xs.length - cfg.n_random_starts)).1,
          xs ++ randomPts O.sample (seedOf cfg e) 0 cfg.n_random_starts
            ++ (guidedRun O (seedOf cfg e)
                  (evalObs O.func xs
                    ++ evalObs O.func
                        (randomPts O.sample (seedOf cfg e) 0 cfg.n_random_starts))
                  (cfg.n_calls - xs.length - cfg.n_random_starts)).2⟩
    ∧ (randomPts O.sample (seedOf cfg e) 0 cfg.n_random_starts).length
        = cfg.n_random_starts
    ∧ ((guidedRun O (seedOf cfg e)
          (evalObs O.func xs
            ++ evalObs O.func
                (randomPts O.sample (seedOf cfg e) 0 cfg.n_random_starts))
          (cfg.n_calls - xs.length - cfg.n_random_starts)).1).length
        = cfg.n_calls - xs.length - cfg.n_random_starts :=
  ⟨runSMBO_x0_only O e cfg xs h, randomPts_length O.sample (seedOf cfg e) _ 0,
    guidedRun_fst_length O (seedOf cfg e) _ _⟩

/-- Claim C2: with both `x0` and `y0` supplied, a valid run appends the seed
pairs to the Trace as-is and never calls the objective on them: the final
Trace is the seed pairs, then `n_random_starts` random evaluations, then
`n_calls - n_random_starts` guided evaluations, while the objective-call log
consists of the random and guided points only and has length exactly
`n_calls`. -/
theorem claim_C2 (O : Oracles α) (e : Nat) (cfg : SMBOConfig)
    (xs : List α) (ys : List Int) (h : cfg.n_random_starts ≤ cfg.n_calls)
    (hlen : xs.length = ys.length) :
    runSMBO O e cfg (some xs) (some ys) =
      Except.ok
        ⟨Phase.done, [], 0, 0, cfg.n_random_starts,
          seedObs xs ys
            ++ evalObs O.func
                (randomPts O.sample (seedOf cfg e) 0 cfg.n_random_starts)
            ++ (guidedRun O (seedOf cfg e)
                  (seedObs xs ys
                    ++ evalObs O.func
                        (randomPts O.sample (seedOf cfg e) 0 cfg.n_random_starts))
                  (cfg.n_calls - cfg.n_random_starts)).1,
          randomPts O.sample (seedOf cfg e) 0 cfg.n_random_starts
            ++ (guidedRun O (seedOf cfg e)
                  (seedObs xs ys
                    ++ evalObs O.func
                        (randomPts O.sample (seedOf cfg e) 0 cfg.n_random_starts))
                  (cfg.n_calls - cfg.n_random_starts)).2⟩
    ∧ (randomPts O.sample (seedOf cfg e) 0 cfg.n_random_starts
        ++ (guidedRun O (seedOf cfg e)
              (seedObs xs ys
                ++ evalObs O.func
                    (randomPts O.sample (seedOf cfg e) 0 cfg.n_random_starts))
              (cfg.n_calls - cfg.n_random_starts)).2).length = cfg.n_calls := by
  refine ⟨runSMBO_seeded O e cfg xs ys h hlen, ?_⟩
  simp [randomPts_length, guidedRun_snd_length]
  omega

/-- Claim C3, counterexample: with `x0` and `y0` both supplied and non-empty,
the final Trace is longer than `n_calls`: for `n_calls = 1`,
`n_random_starts = 0`, one pre-evaluated seed pair, the run completes with a
Trace of length 2, not 1. -/
theorem claim_C3_counterexample :
    runSMBO demoOracles 0 ⟨1, 0, some 0⟩ (some [5]) (some [7])
      = Except.ok ⟨Phase.done, [], 0, 0, 0, [⟨5, 7⟩, ⟨1, 1⟩], [1]⟩
    ∧ (⟨Phase.done, [], 0, 0, 0, [⟨5, 7⟩, ⟨1, 1⟩], [1]⟩
        : DriverState Nat).trace.length ≠ (⟨1, 0, some 0⟩ : SMBOConfig).n_calls :=
  ⟨rfl, by decide⟩

/-- Claim C3, amended: for every valid configuration the run terminates, and
the final Trace length equals `n_calls` whenever `y0` is not supplied (with
seeds `x0` counted into the budget, which requires
`len x0 + n_random_starts ≤ n_calls`); when `x0` and `y0` are both supplied
the seed pairs are appended on top of the `n_calls` evaluations, so the final
Trace length equals `len x0 + n_calls`. -/
theorem claim_C3_amended (O : Oracles α) (e : Nat) (cfg : SMBOConfig)
    (h : cfg.n_random_starts ≤ cfg.n_calls) :
    (∀ (y0 : Option (List Int)) (st : DriverState α),
        runSMBO O e cfg none y0 = Except.ok st → st.trace.length = cfg.n_calls)
    ∧ (∀ (xs : List α) (st : DriverState α),
        xs.length + cfg.n_random_starts ≤ cfg.n_calls →
        runSMBO O e cfg (some xs) none = Except.ok st →
        st.trace.length = cfg.n_calls)
    ∧ (∀ (xs : List α) (ys : List Int) (st : DriverState α),
        runSMBO O e cfg (some xs) (some ys) = Except.ok st →
        st.trace.length = xs.length + cfg.n_calls) := by
  refine ⟨?_, ?_, ?_⟩
  · intro y0 st hst
    rw [runSMBO_noseeds O e cfg y0 h] at hst
    injection hst with hst
    subst hst
    simp [evalObs_length, randomPts_length, guidedRun_fst_length]
    omega
  · intro xs st hx hst
    rw [runSMBO_x0_only O e cfg xs h] at hst
    injection hst with hst
    subst hst
    simp [evalObs_length, randomPts_length, guidedRun_fst_length]
    omega
  · intro xs ys st hst
    by_cases hlen : xs.length = ys.length
    · rw [runSMBO_seeded O e cfg xs ys h hlen] at hst
      injection hst with hst
      subst hst
      simp [seedObs_length, evalObs_length, randomPts_length,
        guidedRun_fst_length, hlen]
      omega
    · have herr : runSMBO O e cfg (some xs) (some ys)
          = Except.error SMBOError.configurationError := by
        have hnot : ¬ cfg.n_calls < cfg.n_random_starts := Nat.not_lt.mpr h
        simp [runSMBO, hnot, hlen]
      rw [herr] at hst
      exact absurd hst (by simp)

/-- Claim C4: the assembled result of a completed run has `fun_val` equal to
the minimum over all recorded Trace values and `x` equal to the Trace point at
which that minimum was first recorded: every Trace value is at least
`fun_val`, and the Trace splits around the Observation `(x, fun_val)` with
every strictly earlier Observation having a strictly larger value (ties broken
by earliest occurrence); `x_iters` and `func_vals` are the parallel Trace
sequences in evaluation order. -/
theorem claim_C4 (tr : List (Observation α)) (r : OptimizeResult α)
    (h : assembleResult tr = some r) :
    r.x_iters = tr.map (fun o => o.pt)
    ∧ r.func_vals = tr.map (fun o => o.val)
    ∧ (∀ o ∈ tr, r.fun_val ≤ o.val)
    ∧ ∃ pre post, tr = pre ++ (⟨r.x, r.fun_val⟩ : Observation α) :: post
        ∧ ∀ o ∈ pre, r.fun_val < o.val := by
  unfold assembleResult at h
  cases hb : bestObs tr with
  | none => rw [hb] at h; exact absurd h (by simp)
  | some b =>
      rw [hb] at h
      simp only [Option.map_some', Option.some.injEq] at h
      subst h
      obtain ⟨hmin, pre, post, hsplit, hpre⟩ := bestObs_spec tr b hb
      exact ⟨rfl, rfl, hmin, pre, post, hsplit, hpre⟩

/-- Claim C5: two runs with identical configuration and an identical supplied
(non-`None`) `random_state` produce identical outcomes even under different
ambient entropy: the full final driver states (hence the Traces) agree, and so
do the assembled results (hence the best point). -/
theorem claim_C5 (O : Oracles α) (e1 e2 : Nat) (cfg : SMBOConfig)
    (x0 : Option (List α)) (y0 : Option (List Int)) (s : Nat)
    (h : cfg.random_state = some s) :
    runSMBO O e1 cfg x0 y0 = runSMBO O e2 cfg x0 y0
    ∧ (runSMBO O e1 cfg x0 y0).map (fun st => assembleResult st.trace)
        = (runSMBO O e2 cfg x0 y0).map (fun st => assembleResult st.trace) := by
  have hseed : seedOf cfg e1 = seedOf cfg e2 := by simp [seedOf, h]
  have heq : runSMBO O e1 cfg x0 y0 = runSMBO O e2 cfg x0 y0 := by
    unfold runSMBO
    rw [hseed]
  exact ⟨heq, by rw [heq]⟩

/-- Claim C6: a run with `n_calls < n_random_starts`, or with `x0` and `y0`
both supplied as sequences of different lengths, fails with
`ConfigurationError`; the error is produced by the validation that precedes
the evaluation loop, so no Trace entry and no objective call exists (the error
outcome carries no Trace). -/
theorem claim_C6 (O : Oracles α) (e : Nat) (cfg : SMBOConfig)
    (x0 : Option (List α)) (y0 : Option (List Int)) :
    (cfg.n_calls < cfg.n_random_starts →
        runSMBO O e cfg x0 y0 = Except.error SMBOError.configurationError)
    ∧ (∀ (xs : List α) (ys : List Int), x0 = some xs → y0 = some ys →
        xs.length ≠ ys.length →
        runSMBO O e cfg x0 y0 = Except.error SMBOError.configurationError) := by
  constructor
  · intro hlt
    simp [runSMBO, hlt]
  · intro xs ys hx hy hne
    subst hx
    subst hy
    by_cases hlt : cfg.n_calls < cfg.n_random_starts
    · simp [runSMBO, hlt]
    · simp [runSMBO, hlt, hne]

/-- Claim C7: for a candidate with predicted standard deviation exactly zero,
the EI evaluator scores exactly zero and the PI evaluator scores a fixed
finite rational (`-1` or `0`), whatever the predicted mean and the improvement
threshold; neither score consults the external normal cdf/pdf routines (the
scores are independent of them), so no NaN or infinity can propagate from the
singular `z = (t - mean) / 0`. -/
theorem claim_C7 (cdf cdf2 pdf pdf2 : Rat → Rat) (mean y_opt xi : Rat) :
    gaussian_ei cdf pdf mean 0 y_opt xi = 0
    ∧ gaussian_ei cdf pdf mean 0 y_opt xi = gaussian_ei cdf2 pdf2 mean 0 y_opt xi
    ∧ (gaussian_pi cdf mean 0 y_opt xi = -1 ∨ gaussian_pi cdf mean 0 y_opt xi = 0)
    ∧ gaussian_pi cdf mean 0 y_opt xi = gaussian_pi cdf2 mean 0 y_opt xi := by
  refine ⟨by simp [gaussian_ei], by simp [gaussian_ei], ?_, ?_⟩
  · by_cases hm : mean < y_opt - xi
    · exact Or.inl (by simp [gaussian_pi, hm])
    · exact Or.inr (by simp [gaussian_pi, hm])
  · by_cases hm : mean < y_opt - xi <;> simp [gaussian_pi, hm]

/-- Claim C8: whatever value is passed as the `acq_optimizer` argument of
`forest_minimize`, the outcome is the same, and the call it makes into
`base_minimize` always carries `acq_optimizer = "sampling"`. -/
theorem claim_C8 (args : ForestArgs α) (s1 s2 : String) :
    forest_minimize { args with acq_optimizer := s1 }
      = forest_minimize { args with acq_optimizer := s2 }
    ∧ ∀ est, (mkBaseCall args est).acq_optimizer = "sampling" := by
  constructor
  · cases hbe : args.base_estimator with
    | name s => simp [forest_minimize, mkBaseCall, hbe]
    | inst r => simp [forest_minimize, mkBaseCall, hbe]
  · intro est
    rfl

/-- Claim C9: a string `base_estimator` other than `"RF"`, `"ET"`,
`"RFquantile"` makes `forest_minimize` fail with the `ValueError` message that
names only `'RF'` and `'ET'` as valid, without constructing any surrogate and
without ever reaching `base_minimize` (so no objective evaluation can occur);
the string `"RFquantile"` is nevertheless accepted and resolved to the
quantile-regressor surrogate. -/
theorem claim_C9 (args : ForestArgs α) (s : String)
    (h1 : s ≠ "RF") (h2 : s ≠ "ET") (h3 : s ≠ "RFquantile") :
    forest_minimize { args with base_estimator := BaseEstimatorArg.name s }
        = Except.error ("Valid strings for the base_estimator parameter"
            ++ " are: \x27RF\x27 or \x27ET\x27, not \x27" ++ s ++ "\x27")
    ∧ forest_minimize { args with base_estimator := BaseEstimatorArg.name "RFquantile" }
        = Except.ok (mkBaseCall
            { args with base_estimator := BaseEstimatorArg.name "RFquantile" }
            (Regressor.randomForestQuantileRegressor args.quantiles 100 3
              args.n_jobs args.random_state)) := by
  constructor
  · simp [forest_minimize, h1, h2, h3]
  · simp [forest_minimize]

/-- Claim C10: when the caller omits `acq_func`, `forest_minimize` runs with
`acq_func = "EI"` — the signature default is `"EI"` and it is forwarded
unchanged into the `base_minimize` call — even though the function's own
docstring documents the default as `"LCB"`. -/
theorem claim_C10 :
    ({} : ForestArgs Nat).acq_func = "EI"
    ∧ forest_minimize ({} : ForestArgs Nat)
        = Except.ok (mkBaseCall ({} : ForestArgs Nat)
            (Regressor.extraTreesRegressor 100 3 1 none))
    ∧ (mkBaseCall ({} : ForestArgs Nat)
        (Regressor.extraTreesRegressor 100 3 1 none)).acq_func = "EI"
    ∧ documented_acq_func_default = "LCB"
    ∧ documented_acq_func_default ≠ ({} : ForestArgs Nat).acq_func :=
  ⟨rfl, rfl, rfl, rfl, by decide⟩

/-- Witness for claim C1 at a concrete run: budget 4, one random start, two
seed points, supplied seed 10. -/
theorem claim_C1_witness :
    (⟨4, 1, some 10⟩ : SMBOConfig).n_random_starts
        ≤ (⟨4, 1, some 10⟩ : SMBOConfig).n_calls
    ∧ (runSMBO demoOracles 0 ⟨4, 1, some 10⟩ (some [7, 9]) none
          = Except.ok ⟨Phase.done, [], 0, 0, 1,
              [⟨7, 7⟩, ⟨9, 9⟩, ⟨10, 10⟩, ⟨13, 13⟩], [7, 9, 10, 13]⟩
      ∧ ([10] : List Nat).length = 1
      ∧ ([(⟨13, 13⟩ : Observation Nat)]).length = 1) :=
  ⟨by decide, claim_C1 demoOracles 0 ⟨4, 1, some 10⟩ [7, 9] (by decide)⟩

/-- Witness for claim C2 at a concrete run: budget 3, one random start, two
pre-evaluated seed pairs, supplied seed 4, ambient entropy 9 (ignored). -/
theorem claim_C2_witness :
    (⟨3, 1, some 4⟩ : SMBOConfig).n_random_starts
        ≤ (⟨3, 1, some 4⟩ : SMBOConfig).n_calls
    ∧ ([2, 6] : List Nat).length = ([5, 8] : List Int).length
    ∧ (runSMBO demoOracles 9 ⟨3, 1, some 4⟩ (some [2, 6]) (some [5, 8])
          = Except.ok ⟨Phase.done, [], 0, 0, 1,
              [⟨2, 5⟩, ⟨6, 8⟩, ⟨4, 4⟩, ⟨7, 7⟩, ⟨8, 8⟩], [4, 7, 8]⟩
      ∧ ([4, 7, 8] : List Nat).length = 3) :=
  ⟨by decide, by decide,
    claim_C2 demoOracles 9 ⟨3, 1, some 4⟩ [2, 6] [5, 8] (by decide) (by decide)⟩

/-- Witness for the amended claim C3 at a concrete seeded run: budget 2, one
random start, one pre-evaluated seed pair; the final Trace has length
`1 + 2`. -/
theorem claim_C3_amended_witness :
    (⟨2, 1, some 3⟩ : SMBOConfig).n_random_starts
        ≤ (⟨2, 1, some 3⟩ : SMBOConfig).n_calls
    ∧ runSMBO demoOracles 0 ⟨2, 1, some 3⟩ (some [5]) (some [7])
        = Except.ok ⟨Phase.done, [], 0, 0, 1,
            [⟨5, 7⟩, ⟨3, 3⟩, ⟨5, 5⟩], [3, 5]⟩
    ∧ (⟨Phase.done, [], 0, 0, 1, [⟨5, 7⟩, ⟨3, 3⟩, ⟨5, 5⟩], [3, 5]⟩
        : DriverState Nat).trace.length = 3 :=
  ⟨by decide, rfl,
    (claim_C3_amended demoOracles 0 ⟨2, 1, some 3⟩ (by decide)).2.2 [5] [7]
      ⟨Phase.done, [], 0, 0, 1, [⟨5, 7⟩, ⟨3, 3⟩, ⟨5, 5⟩], [3, 5]⟩ rfl⟩

/-- Witness for claim C4 at a concrete Trace: values 5, 3, 3, whose minimum 3
is first reached at the second Observation. -/
theorem claim_C4_witness :
    assembleResult ([⟨1, 5⟩, ⟨2, 3⟩, ⟨3, 3⟩] : List (Observation Nat))
        = some ⟨2, 3, [1, 2, 3], [5, 3, 3]⟩
    ∧ ((⟨2, 3, [1, 2, 3], [5, 3, 3]⟩ : OptimizeResult Nat).x_iters
          = ([⟨1, 5⟩, ⟨2, 3⟩, ⟨3, 3⟩] : List (Observation Nat)).map (fun o => o.pt)
      ∧ (⟨2, 3, [1, 2, 3], [5, 3, 3]⟩ : OptimizeResult Nat).func_vals
          = ([⟨1, 5⟩, ⟨2, 3⟩, ⟨3, 3⟩] : List (Observation Nat)).map (fun o => o.val)
      ∧ (∀ o ∈ ([⟨1, 5⟩, ⟨2, 3⟩, ⟨3, 3⟩] : List (Observation Nat)),
          (⟨2, 3, [1, 2, 3], [5, 3, 3]⟩ : OptimizeResult Nat).fun_val ≤ o.val)
      ∧ ∃ pre post,
          ([⟨1, 5⟩, ⟨2, 3⟩, ⟨3, 3⟩] : List (Observation Nat))
              = pre ++ (⟨2, 3⟩ : Observation Nat) :: post
            ∧ ∀ o ∈ pre,
                (⟨2, 3, [1, 2, 3], [5, 3, 3]⟩ : OptimizeResult Nat).fun_val < o.val) :=
  ⟨rfl, claim_C4 [⟨1, 5⟩, ⟨2, 3⟩, ⟨3, 3⟩] ⟨2, 3, [1, 2, 3], [5, 3, 3]⟩ rfl⟩

/-- Witness for claim C5 at a concrete configuration with supplied seed 2 and
two different ambient entropies 0 and 5. -/
theorem claim_C5_witness :
    (⟨3, 1, some 2⟩ : SMBOConfig).random_state = some 2
    ∧ (runSMBO demoOracles 0 ⟨3, 1, some 2⟩ none none
          = runSMBO demoOracles 5 ⟨3, 1, some 2⟩ none none
      ∧ (runSMBO demoOracles 0 ⟨3, 1, some 2⟩ none none).map
            (fun st => assembleResult st.trace)
          = (runSMBO demoOracles 5 ⟨3, 1, some 2⟩ none none).map
              (fun st => assembleResult st.trace)) :=
  ⟨rfl, claim_C5 demoOracles 0 5 ⟨3, 1, some 2⟩ none none 2 rfl⟩

/-- Witness for claim C6 at concrete invalid configurations: a budget smaller
than the warm-up count, and mismatched seed-sequence lengths. -/
theorem claim_C6_witness :
    ((⟨1, 2, none⟩ : SMBOConfig).n_calls < (⟨1, 2, none⟩ : SMBOConfig).n_random_starts
      ∧ runSMBO demoOracles 0 ⟨1, 2, none⟩ none none
          = Except.error SMBOError.configurationError)
    ∧ (([1] : List Nat).length ≠ ([1, 2] : List Int).length
      ∧ runSMBO demoOracles 0 ⟨5, 1, none⟩ (some [1]) (some [1, 2])
          = Except.error SMBOError.configurationError) :=
  ⟨⟨by decide, (claim_C6 demoOracles 0 ⟨1, 2, none⟩ none none).1 (by decide)⟩,
    ⟨by decide,
      (claim_C6 demoOracles 0 ⟨5, 1, none⟩ (some [1]) (some [1, 2])).2
        [1] [1, 2] rfl rfl (by decide)⟩⟩

/-- Witness for claim C9 at the concrete rejected string `"GP"` and the
accepted string `"RFquantile"`, with every other argument left at its
default. -/
theorem claim_C9_witness :
    (("GP" : String) ≠ "RF" ∧ ("GP" : String) ≠ "ET"
        ∧ ("GP" : String) ≠ "RFquantile")
    ∧ (forest_minimize
          { ({} : ForestArgs Nat) with base_estimator := BaseEstimatorArg.name "GP" }
          = Except.error ("Valid strings for the base_estimator parameter"
              ++ " are: \x27RF\x27 or \x27ET\x27, not \x27" ++ "GP" ++ "\x27")
      ∧ forest_minimize
          { ({} : ForestArgs Nat) with
              base_estimator := BaseEstimatorArg.name "RFquantile" }
          = Except.ok (mkBaseCall
              { ({} : ForestArgs Nat) with
                  base_estimator := BaseEstimatorArg.name "RFquantile" }
              (Regressor.randomForestQuantileRegressor (1/20) 100 3 1 none))) :=
  ⟨⟨by decide, by decide, by decide⟩,
    claim_C9 ({} : ForestArgs Nat) "GP" (by decide) (by decide) (by decide)⟩
